import Mathlib

/-!
Verification development for the aws-downscaler time-window evaluation and
scale-decision engine.

Shallow embedding conventions:
* Instants are integer seconds on a single global timeline (UTC).  The epoch
  (second 0) is taken to fall on a Monday at 00:00:00 UTC, so that the weekday
  of an instant is recovered by floor-division and remainder; weekday indices
  follow the source convention Mon=0 .. Sun=6.  Sub-second precision
  (Python datetime microseconds) is below the resolution of the model.
* Timezones are modelled as fixed UTC offsets in seconds (pytz.UTC = 0).
  Daylight-saving transitions are outside the model; every claim under
  verification exercises fixed-offset zones only.
* Python str values are modelled on their underlying character lists, with
  helper functions mirroring the semantics of the Python methods used by the
  source (split, lower, strip, startswith, replace, int).
* Fallible Python code (functions that raise ValueError) is modelled with
  Except / Option results.
-/

/-! ## Python string primitives -/

/-- Model of splitting a character list at every occurrence of a separator
character, keeping empty segments: the semantics of the Python expression
s.split(sep) for a one-character sep. -/
def pySplitChar (sep : Char) : List Char → List (List Char)
  | [] => [[]]
  | c :: cs =>
    match pySplitChar sep cs with
    | [] => [[]]
    | h :: t => if c = sep then [] :: h :: t else (c :: h) :: t

/-- Model of splitting at every character satisfying a predicate, keeping
empty segments: the semantics of re.split with a character class. -/
def pySplitPred (p : Char → Bool) : List Char → List (List Char)
  | [] => [[]]
  | c :: cs =>
    match pySplitPred p cs with
    | [] => [[]]
    | h :: t => if p c then [] :: h :: t else (c :: h) :: t

/-- Model of Python str.split() with no argument: split on runs of
whitespace and drop empty segments. -/
def pySplitWs (s : List Char) : List (List Char) :=
  (pySplitChar ' ' s).filter (fun p => p ≠ [])

/-- Model of Python str.lower() restricted to ASCII, which is all the source
ever lowercases. -/
def pyLower (s : List Char) : List Char :=
  s.map Char.toLower

/-- Model of Python str.strip(chars) for a single strip character: remove the
character from both ends. -/
def pyStripChar (c : Char) (s : List Char) : List Char :=
  ((s.dropWhile (fun x => x = c)).reverse.dropWhile (fun x => x = c)).reverse

/-- Model of Python str.startswith. -/
def pyStartsWith (pre s : List Char) : Bool :=
  pre.isPrefixOf s

/-- Worker for pyReplace, structured on an explicit fuel argument; the fuel is
instantiated with the length of the subject string, which the scan consumes at
least one character of per step, so the fuel never runs out. -/
def pyReplaceGo (pat rep : List Char) : Nat → List Char → List Char
  | _, [] => []
  | 0, l => l
  | fuel + 1, c :: cs =>
    if pat ≠ [] ∧ pat.isPrefixOf (c :: cs) then
      rep ++ pyReplaceGo pat rep fuel (List.drop (pat.length - 1) cs)
    else
      c :: pyReplaceGo pat rep fuel cs

/-- Model of Python str.replace(pat, rep): replace every occurrence of pat,
scanning left to right. -/
def pyReplace (s pat rep : List Char) : List Char :=
  pyReplaceGo pat rep s.length s

/-- Model of Python int(s) for the token shapes the source feeds it: an
optional sign followed by decimal digits.  (Python also tolerates surrounding
whitespace and inner underscores; no claim exercises those forms.) -/
def pyInt (s : List Char) : Option Int :=
  match s with
  | '-' :: ds =>
    if ds ≠ [] ∧ ds.all Char.isDigit then
      some (-(Int.ofNat (ds.foldl (fun a c => a * 10 + c.toNat - 48) 0)))
    else none
  | '+' :: ds =>
    if ds ≠ [] ∧ ds.all Char.isDigit then
      some (Int.ofNat (ds.foldl (fun a c => a * 10 + c.toNat - 48) 0))
    else none
  | ds =>
    if ds ≠ [] ∧ ds.all Char.isDigit then
      some (Int.ofNat (ds.foldl (fun a c => a * 10 + c.toNat - 48) 0))
    else none

/-- Nonnegative digit-string parse, used where the Python source applies int()
to material that must in addition be accepted by datetime.time (which rejects
negatives anyway). -/
def pyNat (s : List Char) : Option Nat :=
  if s ≠ [] ∧ s.all Char.isDigit then
    some (s.foldl (fun a c => a * 10 + c.toNat - 48) 0)
  else none

/-- Model of fnmatch.fnmatch as used by Config.should_process_resource:
glob matching with * (any run) and ? (any one character).  Bracket classes are
outside the model; no configuration under verification uses them. -/
def globMatchGo : Nat → List Char → List Char → Bool
  | _, [], [] => true
  | _, [], _ :: _ => false
  | 0, _ :: _, _ => false
  | fuel + 1, '*' :: ps, [] => globMatchGo fuel ps []
  | fuel + 1, '*' :: ps, c :: cs =>
    globMatchGo fuel ps (c :: cs) || globMatchGo fuel ('*' :: ps) cs
  | _ + 1, _ :: _, [] => false
  | fuel + 1, p :: ps, c :: cs => (p = '?' || p = c) && globMatchGo fuel ps cs

/-- Entry point for the glob matcher; the fuel is the combined length of
pattern and subject, which every recursive step decreases by exactly one,
so it never runs out. -/
def globMatch (pat s : List Char) : Bool :=
  globMatchGo (pat.length + s.length) pat s

/-! ## Time model -/

/-- Seconds per day. -/
def secPerDay : Int := 86400

/-- Start instant (local timeline) of the calendar day containing t: the
model of datetime.combine(local_now.date(), ...) at time 00:00. -/
def dayStart (t : Int) : Int := 86400 * (t / 86400)

/-- Seconds since local midnight: the model of local_now.time(). -/
def timeOfDay (t : Int) : Nat := (t % 86400).toNat

/-- Weekday of the calendar day containing t, with Mon=0 .. Sun=6 (the epoch
day is a Monday): the model of local_now.weekday(). -/
def weekdayOf (t : Int) : Nat := ((t / 86400) % 7).toNat

/-! ## Model of dateutil.parser.parse

The source tries dateutil.parser.parse on every spec string before falling
back to its own recurring-window grammar.  The fragment of dateutil (2.8.x)
modelled here covers exactly the token shapes that window-spec strings
produce: weekday-name words, HH:MM[:SS] groups, numeric timezone offsets
introduced by a sign once an hour has been parsed, the jump characters, and
timezone-name words.  Token shapes outside the fragment (month names, bare
date numbers, am/pm markers) are mapped to parse failure; no claim under
verification exercises them.  The relevant dateutil behaviours, re-traced
from dateutil/parser/_parser.py:

* the lexer groups maximal alphabetic runs and maximal digit runs; every
  other character is a one-character token;
* a weekday name sets res.weekday (later names overwrite earlier ones);
* a digit token followed by a colon token parses as HH:MM and optionally
  HH:MM:SS, setting res.hour / res.minute / res.second;
* once res.hour is set, a + or - token starts a numeric timezone offset:
  a following 4-digit token is HHMM, a following token then a colon then a
  token is HH:MM, a following token of at most 2 digits is HH;
* an all-uppercase word of length at most 5 (or a member of UTCZONE) is a
  timezone name, but only while neither a timezone name nor a numeric
  offset has been seen — afterwards such a word is an unrecognised token;
* the characters space, period, comma, semicolon, hyphen, slash and
  apostrophe are skippable jump tokens, a hyphen only while res.hour is
  unset (the offset branch is checked first);
* any other token aborts the parse (ParserError, a ValueError subclass);
* an entirely empty result also aborts (String does not contain a date);
* parserinfo.validate maps a UTCZONE timezone name to offset 0;
* the default date is the current day; a parsed weekday moves it forward
  to the next (or same) day with that weekday; parsed time fields replace
  the default time fields;
* with an offset the result is timezone-aware: the UTC instant is the
  naive local result minus the offset.
-/

/-- Token model for the dateutil lexer. -/
inductive DUTok where
  | word (s : List Char)
  | num (s : List Char)
  | ch (c : Char)
deriving DecidableEq, Repr

/-- dateutil lexer model: maximal alphabetic runs, maximal digit runs,
single-character tokens otherwise. -/
def duTokenize : List Char → List DUTok
  | [] => []
  | c :: cs =>
    if c.isAlpha then
      match duTokenize cs with
      | DUTok.word w :: t => DUTok.word (c :: w) :: t
      | t => DUTok.word [c] :: t
    else if c.isDigit then
      match duTokenize cs with
      | DUTok.num w :: t => DUTok.num (c :: w) :: t
      | t => DUTok.num [c] :: t
    else
      DUTok.ch c :: duTokenize cs

/-- Partial parse result: the fields of dateutil _result that the modelled
fragment can populate. -/
structure DURes where
  weekday : Option Nat := none
  hour : Option Nat := none
  minute : Option Nat := none
  second : Option Nat := none
  tzn : Option (List Char) := none
  tzoffset : Option Int := none
deriving DecidableEq, Repr

/-- Weekday-name table of dateutil parserinfo (case-insensitive). -/
def duWeekday (w : List Char) : Option Nat :=
  let l := pyLower w
  if l = ('m' :: ('o' :: ['n'])) ∨ l = String.toList ("monday") then some 0
  else if l = String.toList ("tue") ∨ l = String.toList ("tuesday") then some 1
  else if l = String.toList ("wed") ∨ l = String.toList ("wednesday") then some 2
  else if l = String.toList ("thu") ∨ l = String.toList ("thursday") then some 3
  else if l = String.toList ("fri") ∨ l = String.toList ("friday") then some 4
  else if l = String.toList ("sat") ∨ l = String.toList ("saturday") then some 5
  else if l = String.toList ("sun") ∨ l = String.toList ("sunday") then some 6
  else none

/-- UTCZONE list of dateutil parserinfo. -/
def duUTCZone (w : List Char) : Bool :=
  w = String.toList ("UTC") ∨ w = String.toList ("GMT") ∨
    w = String.toList ("Z") ∨ w = String.toList ("z")

/-- The _could_be_tzname test of dateutil: an hour has been parsed, no
timezone name or numeric offset has been seen, and the word is short and
all-uppercase or a UTCZONE member. -/
def duCouldBeTz (r : DURes) (w : List Char) : Bool :=
  r.hour.isSome && r.tzn.isNone && r.tzoffset.isNone && decide (w.length ≤ 5) &&
    (w.all (fun c => c.isUpper) || duUTCZone w)

/-- Jump characters of dateutil parserinfo (single-character members). -/
def duJumpChar (c : Char) : Bool :=
  c = ' ' ∨ c = '.' ∨ c = ',' ∨ c = ';' ∨ c = '-' ∨ c = '/'

/-- One pass of the dateutil parse loop over the token list; none models a
raised ParserError.  The fuel argument is instantiated with the token count;
every step consumes at least one token, so the fuel never runs out. -/
def duLoopGo : Nat → List DUTok → DURes → Option DURes
  | _, [], r => some r
  | 0, _ :: _, _ => none
  | fuel + 1, DUTok.word w :: rest, r =>
    match duWeekday w with
    | some d => duLoopGo fuel rest { r with weekday := some d }
    | none =>
      if duCouldBeTz r w then
        duLoopGo fuel rest { r with tzn := some w }
      else
        none
  | fuel + 1, DUTok.num h :: rest, r =>
    if h.length = 6 ∨ h.length = 8 ∨ h.length = 12 ∨ h.length = 14 then
      none
    else
      match rest with
      | DUTok.ch ':' :: DUTok.num m :: rest2 =>
        if r.hour.isSome then none
        else
          match pyNat h, pyNat m with
          | some hv, some mv =>
            match rest2 with
            | DUTok.ch ':' :: DUTok.num s :: rest3 =>
              match pyNat s with
              | some sv =>
                duLoopGo fuel rest3 { r with hour := some hv, minute := some mv, second := some sv }
              | none => none
            | _ =>
              duLoopGo fuel rest2 { r with hour := some hv, minute := some mv }
          | _, _ => none
      | _ => none
  | fuel + 1, DUTok.ch c :: rest, r =>
    if (c = '+' ∨ c = '-') ∧ r.hour.isSome then
      match rest with
      | DUTok.num o :: rest2 =>
        let sign : Int := if c = '+' then 1 else -1
        if o.length = 4 then
          match pyNat (o.take 2), pyNat (o.drop 2) with
          | some ho, some mo =>
            duLoopGo fuel rest2 { r with tzoffset := some (sign * (ho * 3600 + mo * 60)) }
          | _, _ => none
        else
          match rest2 with
          | DUTok.ch ':' :: DUTok.num mo :: rest3 =>
            match pyNat o, pyNat mo with
            | some ho, some mv =>
              duLoopGo fuel rest3 { r with tzoffset := some (sign * (ho * 3600 + mv * 60)) }
            | _, _ => none
          | _ =>
            if o.length ≤ 2 then
              match pyNat o with
              | some ho =>
                duLoopGo fuel rest2 { r with tzoffset := some (sign * (ho * 3600)) }
              | none => none
            else none
      | _ => none
    else if duJumpChar c then
      duLoopGo fuel rest r
    else
      none

/-- The dateutil parse loop. -/
def duLoop (toks : List DUTok) (r : DURes) : Option DURes :=
  duLoopGo toks.length toks r

/-- Day number (days since the epoch Monday) of the next day with the given
weekday, counting the current day itself: the relativedelta(weekday=w)
adjustment of _build_naive. -/
def duNextWeekday (today : Int) (w : Nat) : Int :=
  today + (((w : Int) - today % 7) % 7)

/-- parserinfo.validate: a UTCZONE timezone name (or Z) forces offset 0; an
offset 0 with no name is named UTC. -/
def duValidate (r : DURes) : DURes :=
  if (r.tzoffset = some 0 ∧ r.tzn = none) ∨
      r.tzn = some (String.toList ("Z")) ∨ r.tzn = some (String.toList ("z")) then
    { r with tzn := some (String.toList ("UTC")), tzoffset := some 0 }
  else if r.tzoffset ≠ some 0 ∧ r.tzn.isSome ∧ duUTCZone (r.tzn.getD []) then
    { r with tzoffset := some 0 }
  else r

/-- _build_naive and _build_tzaware: resolve the parsed fields against the
default date (the current day, a parameter of the model), returning the
resulting instant in UTC together with whether the result is
timezone-aware. -/
def duBuild (today : Int) (r : DURes) : Option (Int × Bool) :=
  if r.weekday = none ∧ r.hour = none ∧ r.minute = none ∧ r.second = none ∧
      r.tzn = none ∧ r.tzoffset = none then
    none
  else
    let r := duValidate r
    let day : Int := match r.weekday with
      | some w => duNextWeekday today w
      | none => today
    let naive : Int := day * 86400 + (r.hour.getD 0) * 3600 +
      (r.minute.getD 0) * 60 + (r.second.getD 0)
    match r.tzoffset with
    | some off => some (naive - off, true)
    | none => some (naive, false)

/-- Full model of dateutil.parser.parse on a spec string: tokenize, run the
parse loop, build against the current day.  none models a raised
ParserError / ValueError. -/
def dateutilParse (today : Int) (s : List Char) : Option (Int × Bool) :=
  (duLoop (duTokenize s) {}).bind (duBuild today)

/-! ## TimeWindow (src/aws_downscaler/time_window.py) -/

/-- The WEEKDAYS table of time_window.py (keys are lowercase). -/
def WEEKDAYS (s : List Char) : Option Nat :=
  if s = String.toList ("mon") ∨ s = String.toList ("monday") then some 0
  else if s = String.toList ("tue") ∨ s = String.toList ("tuesday") then some 1
  else if s = String.toList ("wed") ∨ s = String.toList ("wednesday") then some 2
  else if s = String.toList ("thu") ∨ s = String.toList ("thursday") then some 3
  else if s = String.toList ("fri") ∨ s = String.toList ("friday") then some 4
  else if s = String.toList ("sat") ∨ s = String.toList ("saturday") then some 5
  else if s = String.toList ("sun") ∨ s = String.toList ("sunday") then some 6
  else none

/-- The list of valid weekday tokens (the keys of WEEKDAYS). -/
def weekdayKeys : List String :=
  [("mon"), ("tue"), ("wed"), ("thu"), ("fri"), ("sat"), ("sun"),
   ("monday"), ("tuesday"), ("wednesday"), ("thursday"), ("friday"),
   ("saturday"), ("sunday")]

/-- Model of the pytz timezone database as fixed UTC offsets, restricted to
the identifiers the verified claims exercise (all of them UTC); unknown
identifiers model pytz.exceptions.UnknownTimeZoneError. -/
def pytz_timezone (s : List Char) : Option Int :=
  if s = String.toList ("UTC") then some 0 else none

/-- Structured window descriptor: the fields set by TimeWindow.__init__.
start_time and end_time are seconds since local midnight; timezone is a
fixed UTC offset in seconds; start_dt and end_dt are UTC instants. -/
structure TimeWindow where
  weekdays : List Nat
  start_time : Option Nat
  end_time : Option Nat
  timezone : Int
  recurring : Bool
  start_dt : Option Int
  end_dt : Option Int
deriving DecidableEq, Repr

/-- The absolute branch of TimeWindow._parse_spec: start_dt is the parsed
instant converted to UTC; end_dt replaces its time of day by 23:59:59 on the
same UTC calendar day. -/
def mkAbsolute (dt : Int) : TimeWindow :=
  { weekdays := [], start_time := none, end_time := none, timezone := 0,
    recurring := false, start_dt := some dt,
    end_dt := some (dayStart dt + (23 * 3600 + 59 * 60 + 59)) }

/-- TimeWindow._parse_time: split on one colon, convert both sides with
int(), accept exactly the values datetime.time accepts (0-23 hours,
0-59 minutes); the result is seconds since midnight. -/
def parse_time (s : List Char) : Except String Nat :=
  match pySplitChar ':' s with
  | [hs, ms] =>
    match pyInt hs, pyInt ms with
    | some hv, some mv =>
      if 0 ≤ hv ∧ hv ≤ 23 ∧ 0 ≤ mv ∧ mv ≤ 59 then
        .ok ((hv * 3600 + mv * 60).toNat)
      else .error ("Invalid time " ++ String.mk s)
    | _, _ => .error ("Invalid time " ++ String.mk s)
  | _ => .error ("Invalid time " ++ String.mk s)

/-- The weekday list produced by the range branch of _parse_spec:
list(range(start_idx, 7)) + list(range(0, end_idx + 1)) when the range wraps
(end index before start index), list(range(start_idx, end_idx + 1))
otherwise. -/
def weekdayRange (si ei : Nat) : List Nat :=
  if ei < si then List.range' si (7 - si) ++ List.range' 0 (ei + 1)
  else List.range' si (ei - si + 1)

/-- The weekday-token handling of _parse_spec (lines 65-81): a token
containing a hyphen is split into exactly two names and expanded with
weekdayRange; otherwise it must be a single weekday name.  (A token with two
or more hyphens makes the Python two-variable unpacking raise ValueError;
the model returns the same range error.) -/
def parseWeekdayToken (wd : List Char) : Except String (List Nat) :=
  if wd.contains '-' then
    match pySplitChar '-' wd with
    | [sd, ed] =>
      match WEEKDAYS sd, WEEKDAYS ed with
      | some si, some ei => .ok (weekdayRange si ei)
      | _, _ => .error ("Invalid weekday range " ++ String.mk wd)
    | _ => .error ("Invalid weekday range " ++ String.mk wd)
  else
    match WEEKDAYS wd with
    | some i => .ok [i]
    | none => .error ("Invalid weekday " ++ String.mk wd)

/-- The recurring branch of TimeWindow._parse_spec (lines 61-96), reached
when the dateutil attempt raised: whitespace-split the spec, lowercase and
expand the weekday token, split the time range on a hyphen, parse both
times, and look up the optional timezone (after stripping commas),
defaulting to UTC. -/
def parseRecurringSpec (spec : String) : Except String TimeWindow :=
  let parts := pySplitWs spec.toList
  if parts.length < 2 then .error ("Invalid time window spec " ++ spec)
  else
    match parseWeekdayToken (pyLower ((parts.get? 0).getD [])) with
    | .error e => .error e
    | .ok wds =>
      let tr := (parts.get? 1).getD []
      if tr.contains '-' = false then
        .error ("Invalid time range " ++ String.mk tr)
      else
        match pySplitChar '-' tr with
        | [sts, ets] =>
          match parse_time sts, parse_time ets with
          | .ok st, .ok et =>
            if parts.length > 2 then
              match pytz_timezone (pyStripChar ',' ((parts.get? 2).getD [])) with
              | some off =>
                .ok { weekdays := wds, start_time := some st, end_time := some et,
                      timezone := off, recurring := true, start_dt := none, end_dt := none }
              | none => .error ("Invalid timezone " ++ String.mk ((parts.get? 2).getD []))
            else
              .ok { weekdays := wds, start_time := some st, end_time := some et,
                    timezone := 0, recurring := true, start_dt := none, end_dt := none }
          | .error e, _ => .error e
          | _, .error e => .error e
        | _ => .error ("Invalid time range " ++ String.mk tr)

/-- TimeWindow._parse_spec: first try dateutil; a timezone-aware result
yields an absolute window, a naive result raises inside the same try block
(Timezone is required) and falls through, like a parse failure, to the
recurring grammar.  The today parameter is the current day number, consumed
by the dateutil default date. -/
def parse_spec (today : Int) (spec : String) : Except String TimeWindow :=
  match dateutilParse today spec.toList with
  | some (dt, true) => .ok (mkAbsolute dt)
  | _ => parseRecurringSpec spec

/-- TimeWindow.is_active (lines 106-140). -/
def TimeWindow.is_active (w : TimeWindow) (now : Int) : Bool :=
  if w.recurring = false then
    match w.start_dt, w.end_dt with
    | some s, some e => decide (s ≤ now) && decide (now ≤ e)
    | _, _ => false
  else
    match w.start_time, w.end_time with
    | some st, some et =>
      let local_now := now + w.timezone
      if decide (weekdayOf local_now ∈ w.weekdays) = false then false
      else
        let start_dt := dayStart local_now + st
        let end_dt := dayStart local_now + et
        if et < st then
          let end_dt := end_dt + 86400
          if st ≤ timeOfDay local_now then
            decide (start_dt ≤ local_now) && decide (local_now ≤ end_dt)
          else if timeOfDay local_now ≤ et then
            decide (start_dt - 86400 ≤ local_now) &&
              decide (local_now ≤ end_dt - 86400)
          else false
        else
          decide (start_dt ≤ local_now) && decide (local_now ≤ end_dt)
    | _, _ => false

/-- TimeWindow.is_within_grace_period (lines 142-171). -/
def TimeWindow.is_within_grace_period (w : TimeWindow) (now : Int)
    (grace_period : Int) : Bool :=
  if w.recurring = false then
    match w.end_dt with
    | none => false
    | some e => decide (now ≤ e + grace_period)
  else
    if w.is_active now = false ∧ w.end_time ≠ none then
      match w.end_time with
      | some et =>
        let local_now := now + w.timezone
        let end_dt := dayStart local_now + et
        let end_dt :=
          if (match w.start_time with
              | some st => decide (et < st)
              | none => false) then end_dt + 86400 else end_dt
        decide (local_now ≤ end_dt + grace_period) &&
          decide (weekdayOf local_now ∈ w.weekdays)
      | none => false
    else false

/-- Trailing segment parser for parse_time_specs: strip each segment, skip
empty ones, parse the rest, wrapping the first failure. -/
def parse_time_specs_list (today : Int) : List (List Char) → Except String (List TimeWindow)
  | [] => .ok []
  | seg :: rest =>
    let sp := (seg.dropWhile Char.isWhitespace).reverse.dropWhile Char.isWhitespace |>.reverse
    if sp = [] then parse_time_specs_list today rest
    else
      match parse_spec today (String.mk sp) with
      | .ok w => (parse_time_specs_list today rest).map (fun l => w :: l)
      | .error e =>
        .error ("Invalid time window spec " ++ String.mk sp ++ (": ") ++ e)

/-- TimeWindow.parse_time_specs (lines 173-196): None or the empty string
give the empty list; otherwise split on commas and semicolons and parse
every nonempty trimmed segment. -/
def parse_time_specs (today : Int) (specs : Option String) : Except String (List TimeWindow) :=
  match specs with
  | none => .ok []
  | some s =>
    if s.toList = [] then .ok []
    else parse_time_specs_list today (pySplitPred (fun c => c = ',' ∨ c = ';') s.toList)

/-! ## Config (src/aws_downscaler/config.py) -/

/-- The Config dataclass fields consumed by the decision engine.
downtime_scale and grace_period are assumed to have passed __post_init__
validation (0 <= downtime_scale <= 100, grace_period >= 0); theorems carry
those bounds as hypotheses where they matter. -/
structure Config where
  dry_run : Bool
  default_uptime : Option String
  default_downtime : Option String
  grace_period : Int
  include_resources : Option (List String)
  exclude_resources : Option (List String)
  downtime_scale : Nat
deriving DecidableEq, Repr

/-- Python truthiness of an Optional[List]: None and the empty list are
falsy. -/
def optListTruthy (o : Option (List String)) : Bool :=
  match o with
  | some (_ :: _) => true
  | _ => false

/-- Config.should_process_resource (config.py lines 28-41): the include list
filters on resource type; every exclude pattern ending in * is applied as a
glob to the resource name, every other pattern as an exact match. -/
def Config.should_process_resource (cfg : Config) (resource_type resource_name : String) : Bool :=
  if optListTruthy cfg.include_resources ∧ resource_type ∉ (cfg.include_resources.getD []) then
    false
  else if optListTruthy cfg.exclude_resources ∧
      ((cfg.exclude_resources.getD []).any (fun pat =>
        if pat.toList ≠ [] ∧ pat.toList.getLast? = some '*' then
          globMatch pat.toList resource_name.toList
        else decide (pat = resource_name))) then
    false
  else true

/-- One AWS tag record (Key plus Value). -/
structure AwsTag where
  key : String
  value : String
deriving DecidableEq, Repr

/-- Insertion into a Python dict modelled as an association list: an
existing key is overwritten in place, a new key is appended. -/
def dictInsert (k v : String) : List (String × String) → List (String × String)
  | [] => [(k, v)]
  | (k0, v0) :: rest =>
    if k0 = k then (k, v) :: rest else (k0, v0) :: dictInsert k v rest

/-- Dict lookup. -/
def dictGet (d : List (String × String)) (k : String) : Option String :=
  (d.find? (fun p => p.1 = k)).map (fun p => p.2)

/-- Config.get_resource_tags (config.py lines 43-50): keep the tags whose
lowercased key starts with the downscaler: marker, keyed by the rest of the
key (str.replace removes every occurrence of the marker), last write
wins. -/
def Config.get_resource_tags (aws_tags : List AwsTag) : List (String × String) :=
  aws_tags.foldl
    (fun d t =>
      let key := pyLower t.key.toList
      if pyStartsWith (String.toList ("downscaler:")) key then
        dictInsert (String.mk (pyReplace key (String.toList ("downscaler:")) [])) t.value d
      else d)
    []

/-! ## BaseResource (src/aws_downscaler/resources/base.py)

A resource record bundles the dict fields the engine reads: the name-bearing
attributes, the AWS tag list, and the collaborator scales (get_current_scale
and get_original_scale of the concrete handler). -/

structure Resource where
  attrs : List (String × String)
  tags : List AwsTag
  current_scale : Nat
  original_scale : Nat
deriving DecidableEq, Repr

/-- BaseResource.get_resource_name (lines 44-55): probe the known name
fields in order, then fall back to a tag with key Name, then unknown. -/
def get_resource_name (r : Resource) : String :=
  match [("Name"), ("name"), ("ResourceName"), ("ServiceName"), ("Id"),
      ("ResourceId"), ("Arn")].findSome? (fun f => dictGet r.attrs f) with
  | some v => v
  | none =>
    match r.tags.find? (fun t => t.key = ("Name")) with
    | some t => t.value
    | none => ("unknown")

/-- BaseResource.get_resource_tags delegates to Config.get_resource_tags. -/
def resource_tags (r : Resource) : List (String × String) :=
  Config.get_resource_tags r.tags

/-- The exclude-until step of should_process (lines 71-81): true means the
step does not exclude the resource.  parseIso abstracts
datetime.fromisoformat: some t when the string parses to the instant t, none
when it raises ValueError (in which case the source only warns).  An absent
or empty tag value is falsy and skips the step. -/
def excludeUntilPasses (parseIso : String → Option Int)
    (tags : List (String × String)) (now : Int) : Bool :=
  match dictGet tags ("exclude-until") with
  | none => true
  | some v =>
    if v.toList = [] then true
    else
      match parseIso (String.mk (pyReplace v.toList (String.toList ("Z"))
          (String.toList ("+00:00")))) with
      | some t => if now < t then false else true
      | none => true

/-- The include-list step of should_process (lines 83-86). -/
def includePasses (cfg : Config) (nm : String) : Bool :=
  if optListTruthy cfg.include_resources ∧ nm ∉ (cfg.include_resources.getD []) then false
  else true

/-- The exclude-list step of should_process (lines 88-91): plain list
membership of the resource name. -/
def excludeListPasses (cfg : Config) (nm : String) : Bool :=
  if optListTruthy cfg.exclude_resources ∧ nm ∈ (cfg.exclude_resources.getD []) then false
  else true

/-- BaseResource.should_process (lines 62-93). -/
def should_process (parseIso : String → Option Int) (cfg : Config)
    (r : Resource) (now : Int) : Bool :=
  let tags := resource_tags r
  if dictGet tags ("exclude") = some ("true") then false
  else if excludeUntilPasses parseIso tags now = false then false
  else if includePasses cfg (get_resource_name r) = false then false
  else if excludeListPasses cfg (get_resource_name r) = false then false
  else true

/-- The downtime-scale resolution of _process_resource (lines 122-137): a
tag override is accepted when int() parses it to a value within 0-100,
otherwise the config default is used with a warning. -/
def resolveDowntimeScale (cfg : Config) (tags : List (String × String)) : Nat :=
  match dictGet tags ("downtime-scale") with
  | none => cfg.downtime_scale
  | some v =>
    match pyInt v.toList with
    | some n => if n < 0 ∨ n > 100 then cfg.downtime_scale else n.toNat
    | none => cfg.downtime_scale

/-- The target-scale computation of _process_resource (lines 151-184):
original scale inside an active uptime window; the floor of
original * downtime_scale / 100 when a downtime window is active, or uptime
windows exist and none is active, or no uptime windows exist but downtime
windows do; original scale otherwise.  int(original * ds / 100) on the
Python float quotient truncates toward zero, which on these nonnegative
operands is exact Nat floor division for every magnitude below the 2^53
float-precision limit; the model uses exact floor division. -/
def targetScale (uptime downtime : List TimeWindow) (ds original : Nat)
    (now : Int) : Nat :=
  if uptime.any (fun w => w.is_active now) then original
  else
    if downtime.any (fun w => w.is_active now) ∨
        (uptime ≠ [] ∧ uptime.any (fun w => w.is_active now) = false) ∨
        (uptime = [] ∧ downtime ≠ []) then
      original * ds / 100
    else original

/-- Observable outcome of one _process_resource call. -/
inductive ProcessOutcome where
  | graceSkip
  | dryRun (fromScale toScale : Nat)
  | scaled (fromScale toScale : Nat)
deriving DecidableEq, Repr

/-- The decision core of _process_resource (lines 139-197), after windows
and the downtime scale have been resolved: grace suppression first (only
when grace_period is positive and some uptime window grants grace), then
the target computation; outside dry-run the source calls
set_scale(target_scale) unconditionally. -/
def processCore (cfg : Config) (uptime downtime : List TimeWindow)
    (ds current original : Nat) (now : Int) : ProcessOutcome :=
  if cfg.grace_period > 0 ∧
      uptime.any (fun w => w.is_within_grace_period now cfg.grace_period) then
    ProcessOutcome.graceSkip
  else if cfg.dry_run then
    ProcessOutcome.dryRun current (targetScale uptime downtime ds original now)
  else
    ProcessOutcome.scaled current (targetScale uptime downtime ds original now)

/-- BaseResource._process_resource (lines 111-197): parse the uptime and
downtime window sets from the tag overrides (falling back to the config
defaults when the tag key is absent), resolve the downtime scale, and run
the decision core.  A window-spec parse failure propagates as the error. -/
def process_resource (cfg : Config) (r : Resource) (now today : Int) :
    Except String ProcessOutcome :=
  let tags := resource_tags r
  match parse_time_specs today ((dictGet tags ("uptime")).or cfg.default_uptime) with
  | .error e => .error e
  | .ok uptime =>
    match parse_time_specs today ((dictGet tags ("downtime")).or cfg.default_downtime) with
    | .error e => .error e
    | .ok downtime =>
      .ok (processCore cfg uptime downtime (resolveDowntimeScale cfg tags)
        r.current_scale r.original_scale now)

/-- One entry of the per-cycle evaluation log: a resource was either skipped
by should_process, evaluated to an outcome, or failed with a caught and
logged error. -/
inductive CycleEntry where
  | skipped (nm : String)
  | done (nm : String) (o : ProcessOutcome)
  | errorLogged (nm : String) (e : String)
deriving DecidableEq, Repr

/-- The per-resource step of BaseResource.check_and_scale (lines 99-109):
the try/except around _process_resource turns a raised error into a logged
entry. -/
def evalResource (parseIso : String → Option Int) (cfg : Config)
    (r : Resource) (now today : Int) : CycleEntry :=
  let nm := get_resource_name r
  if should_process parseIso cfg r now = false then CycleEntry.skipped nm
  else
    match process_resource cfg r now today with
    | .ok o => CycleEntry.done nm o
    | .error e => CycleEntry.errorLogged nm e

/-- BaseResource.check_and_scale (lines 95-109) over an already listed
resource collection: every resource is evaluated independently in order. -/
def check_and_scale (parseIso : String → Option Int) (cfg : Config)
    (resources : List Resource) (now today : Int) : List CycleEntry :=
  resources.map (fun r => evalResource parseIso cfg r now today)

/-! ## Concrete instances used by the theorems -/

/-- The recurring window parsed from Mon-Fri 09:00-17:00 UTC. -/
def wMonFri0917 : TimeWindow :=
  { weekdays := [0, 1, 2, 3, 4], start_time := some 32400, end_time := some 61200,
    timezone := 0, recurring := true, start_dt := none, end_dt := none }

/-- The recurring overnight window parsed from Mon-Fri 22:00-06:00 UTC. -/
def wMonFri2206 : TimeWindow :=
  { weekdays := [0, 1, 2, 3, 4], start_time := some 79200, end_time := some 21600,
    timezone := 0, recurring := true, start_dt := none, end_dt := none }

/-- A configuration with no windows configured and no lists. -/
def cfgNoWindows : Config :=
  { dry_run := false, default_uptime := none, default_downtime := none,
    grace_period := 0, include_resources := none, exclude_resources := none,
    downtime_scale := 50 }

/-- A configuration with a default uptime window and a glob exclude
pattern. -/
def cfgExcl : Config :=
  { dry_run := false, default_uptime := some ("Mon-Fri 09:00-17:00 UTC"),
    default_downtime := none, grace_period := 0, include_resources := none,
    exclude_resources := some [("prod-*")], downtime_scale := 50 }

/-- A plain resource currently below its original scale. -/
def resFive : Resource :=
  { attrs := [(("Name"), ("test-1"))], tags := [], current_scale := 5,
    original_scale := 10 }

/-- A resource matching the prod-* exclude pattern by glob but not by exact
name. -/
def resProd : Resource :=
  { attrs := [(("Name"), ("prod-service"))], tags := [], current_scale := 10,
    original_scale := 10 }

/-- Healthy resources surrounding the failing one in the cycle. -/
def resA : Resource :=
  { attrs := [(("Name"), ("res-a"))], tags := [], current_scale := 4,
    original_scale := 4 }

/-- Second healthy resource. -/
def resB : Resource :=
  { attrs := [(("Name"), ("res-b"))], tags := [], current_scale := 6,
    original_scale := 6 }

/-- A resource whose uptime tag override is an unparsable spec. -/
def resBadSpec : Resource :=
  { attrs := [(("Name"), ("res-bad"))],
    tags := [{ key := ("downscaler:uptime"), value := ("garbage") }],
    current_scale := 3, original_scale := 3 }

/-- A resource carrying an exclude-until tag. -/
def resUntil : Resource :=
  { attrs := [(("Name"), ("res-u"))],
    tags := [{ key := ("downscaler:exclude-until"),
               value := ("2024-01-02T12:00:00Z") }],
    current_scale := 2, original_scale := 2 }

/-- A concrete instant parser recognising exactly the normalised form of the
exclude-until value of resUntil, mapping it to instant 1000. -/
def pIsoFix : String → Option Int :=
  fun s => if s = ("2024-01-02T12:00:00+00:00") then some 1000 else none

/-! ## Theorems -/

/-- C1: the claim states that is_within_grace_period returns true only when
the window is not active and now falls within grace_seconds after the most
recent end boundary, and that for uptime Mon-Fri 09:00-17:00 UTC with grace
300 it is true at 17:03 UTC and false at 17:06 UTC on a covered weekday.
The concrete 17:03/17:06 part holds (conjuncts four and five), but the
only-when part is false in the code: at Monday 08:00 UTC — nine hours
before the end boundary 17:00 of that day, hence not within any trailing
grace interval — the window is inactive yet is_within_grace_period returns
true, because the recurring branch tests only local_now <= end + grace with
no lower bound; and for an absolute window the function ignores activity
entirely, returning true at its own start instant while the window is
active.  This contradicts the claim and the docstring of the function
(within the grace period after the window). -/
theorem c1_grace_period_code_bug :
    parse_spec 0 ("Mon-Fri 09:00-17:00 UTC") = Except.ok wMonFri0917 ∧
    wMonFri0917.is_active (8 * 3600) = false ∧
    (8 * 3600 : Int) < 61200 ∧
    wMonFri0917.is_within_grace_period (8 * 3600) 300 = true ∧
    wMonFri0917.is_within_grace_period (2 * 86400 + 17 * 3600 + 180) 300 = true ∧
    wMonFri0917.is_within_grace_period (2 * 86400 + 17 * 3600 + 360) 300 = false ∧
    (mkAbsolute 43200).is_active 43200 = true ∧
    (mkAbsolute 43200).is_within_grace_period 43200 300 = true := by
  refine ⟨rfl, by decide, by decide, by decide, by decide, by decide, by decide, by decide⟩

/-- C2 counterexample: with no uptime or downtime windows configured at all,
dry-run off and grace off, the claim says the decision is NoChange and the
resource scale is not changed; but on a resource whose current scale 5
differs from its original scale 10 the code calls set_scale(10)
unconditionally, changing the scale. -/
theorem c2_counterexample :
    process_resource cfgNoWindows resFive 0 0 =
      Except.ok (ProcessOutcome.scaled 5 10) ∧ (5 : Nat) ≠ 10 :=
  ⟨rfl, by decide⟩

/-- C2 amended: in a single resource evaluation with dry-run off and grace
not triggering, when an uptime window is active the target scale is
original_scale, and when no uptime or downtime windows are configured at
all the target scale is also original_scale; in both cases the code invokes
set_scale with that target unconditionally — even when it equals the
current scale — rather than suppressing the call with a NoChange
decision. -/
theorem c2_amended (cfg : Config) (uptime downtime : List TimeWindow)
    (ds current original : Nat) (now : Int)
    (hdry : cfg.dry_run = false)
    (hgrace : ¬ (cfg.grace_period > 0 ∧
      uptime.any (fun w => w.is_within_grace_period now cfg.grace_period) = true)) :
    (uptime.any (fun w => w.is_active now) = true →
      processCore cfg uptime downtime ds current original now =
        ProcessOutcome.scaled current original)
    ∧ (uptime = [] → downtime = [] →
      processCore cfg uptime downtime ds current original now =
        ProcessOutcome.scaled current original) := by
  constructor
  · intro hup
    unfold processCore
    rw [if_neg hgrace, if_neg (show ¬ cfg.dry_run = true by simp [hdry])]
    unfold targetScale
    rw [if_pos hup]
  · intro hu hd
    subst hu; subst hd
    unfold processCore
    rw [if_neg hgrace, if_neg (show ¬ cfg.dry_run = true by simp [hdry])]
    unfold targetScale
    simp

/-- C2 amended, witness: with no windows the resource at current scale 5 and
original 10 receives set_scale(10); with an active uptime window and equal
scales set_scale(10) is still invoked. -/
theorem c2_amended_witness :
    processCore cfgNoWindows [] [] 50 5 10 0 = ProcessOutcome.scaled 5 10 ∧
    processCore cfgNoWindows [wMonFri0917] [] 50 10 10 (10 * 3600) =
      ProcessOutcome.scaled 10 10 :=
  ⟨(c2_amended cfgNoWindows [] [] 50 5 10 0 rfl (by decide)).2 rfl rfl,
   (c2_amended cfgNoWindows [wMonFri0917] [] 50 10 10 (10 * 3600) rfl
      (by decide)).1 (by decide)⟩

/-- C3: the claim states that every recurring spec of the form
weekday-token HH:MM-HH:MM with the timezone omitted parses as a Recurring
window defaulting to UTC.  In the code the prior dateutil attempt succeeds
on every such string — the trailing -HH:MM is read as a numeric UTC offset
once a time has been parsed — so the string is parsed as an Absolute window
(recurring = false) anchored at the next matching weekday, and the
recurring branch with its UTC default is never reached.  Shown here on the
single-weekday form (mon 09:00-17:00, with the current day at the epoch
Monday: instant 93600 is Monday 09:00 at offset -17:00) and on the range
form (Mon-Fri 09:00-17:00). -/
theorem c3_omitted_timezone_code_bug :
    parse_spec 0 ("mon 09:00-17:00") = Except.ok (mkAbsolute 93600) ∧
    (mkAbsolute 93600).recurring = false ∧
    parse_spec 0 ("Mon-Fri 09:00-17:00") = Except.ok (mkAbsolute 439200) ∧
    (mkAbsolute 439200).recurring = false := by
  refine ⟨rfl, rfl, rfl, rfl⟩

/-- C6: the claim states that a configured exclude-resources pattern ending
in * excludes every glob-matching resource from the evaluation cycle.  The
cycle path BaseResource.should_process tests only exact list membership of
the name and never calls Config.should_process_resource, so the resource
prod-service is processed and scaled despite the configured pattern prod-*,
even though Config.should_process_resource — which the repository
implements and unit-tests for exactly this input — would exclude it. -/
theorem c6_glob_exclude_code_bug :
    should_process (fun _ => none) cfgExcl resProd (5 * 86400 + 12 * 3600) = true ∧
    check_and_scale (fun _ => none) cfgExcl [resProd] (5 * 86400 + 12 * 3600) 5 =
      [CycleEntry.done ("prod-service") (ProcessOutcome.scaled 10 5)] ∧
    globMatch (String.toList ("prod-*")) (String.toList ("prod-service")) = true ∧
    Config.should_process_resource cfgExcl ("asg") ("prod-service") = false := by
  refine ⟨rfl, rfl, rfl, rfl⟩

/-- C7: for every spec parsed as Absolute, the stored end instant is the
start instant with its time of day replaced by 23:59:59 on the same UTC
calendar day, and the window is active exactly on the closed interval from
the start instant to that end instant, compared in UTC. -/
theorem c7_absolute_window (dt now : Int) :
    (mkAbsolute dt).start_dt = some dt ∧
    (mkAbsolute dt).end_dt = some (dayStart dt + (23 * 3600 + 59 * 60 + 59)) ∧
    ((mkAbsolute dt).is_active now = true ↔
      dt ≤ now ∧ now ≤ dayStart dt + (23 * 3600 + 59 * 60 + 59)) := by
  refine ⟨rfl, rfl, ?_⟩
  simp [mkAbsolute, TimeWindow.is_active]

/-- C8: for every recurring window whose end time precedes its start time
(overnight wrap) and every instant whose local weekday is in the weekday
set, the window is active exactly when either the local time of day is at
or after the start time and the local instant lies between the start on the
current day and the end on the next day, or the local time of day is at or
before the end time and the local instant lies between the start on the
previous day and the end on the current day; otherwise it is inactive. -/
theorem c8_overnight_active (w : TimeWindow) (st et : Nat) (now : Int)
    (hrec : w.recurring = true) (hst : w.start_time = some st)
    (het : w.end_time = some et) (hov : et < st)
    (hwd : weekdayOf (now + w.timezone) ∈ w.weekdays) :
    (w.is_active now = true) ↔
      ((st ≤ timeOfDay (now + w.timezone) ∧
          dayStart (now + w.timezone) + st ≤ now + w.timezone ∧
          now + w.timezone ≤ dayStart (now + w.timezone) + et + 86400)
        ∨ (timeOfDay (now + w.timezone) ≤ et ∧
          dayStart (now + w.timezone) + st - 86400 ≤ now + w.timezone ∧
          now + w.timezone ≤ dayStart (now + w.timezone) + et)) := by
  have hwdd : (decide (weekdayOf (now + w.timezone) ∈ w.weekdays)) = true := by
    simpa using hwd
  simp only [TimeWindow.is_active, hrec, hst, het, hwdd]
  rw [if_neg (by simp), if_neg (by simp), if_pos hov]
  by_cases h1 : st ≤ timeOfDay (now + w.timezone)
  · rw [if_pos h1]
    simp only [Bool.and_eq_true, decide_eq_true_eq]
    simp only [timeOfDay, dayStart] at h1 ⊢
    omega
  · rw [if_neg h1]
    by_cases h2 : timeOfDay (now + w.timezone) ≤ et
    · rw [if_pos h2]
      simp only [Bool.and_eq_true, decide_eq_true_eq]
      simp only [timeOfDay, dayStart] at h1 h2 ⊢
      omega
    · rw [if_neg h2]
      simp only [Bool.false_eq_true, false_iff]
      simp only [timeOfDay, dayStart] at h1 h2 ⊢
      omega

/-- C8 witness: the overnight spec Mon-Fri 22:00-06:00 UTC parses to
wMonFri2206 and is active at local 23:00 on Monday (via the theorem, left
disjunct), active at local 05:00 on Tuesday (via the theorem, right
disjunct), and inactive at local 12:00 on Monday. -/
theorem c8_overnight_active_witness :
    parse_spec 0 ("Mon-Fri 22:00-06:00 UTC") = Except.ok wMonFri2206 ∧
    wMonFri2206.is_active (23 * 3600) = true ∧
    wMonFri2206.is_active (86400 + 5 * 3600) = true ∧
    wMonFri2206.is_active (12 * 3600) = false := by
  refine ⟨rfl, ?_, ?_, by decide⟩
  · exact (c8_overnight_active wMonFri2206 79200 21600 (23 * 3600) rfl rfl rfl
      (by decide) (by decide)).mpr (by decide)
  · exact (c8_overnight_active wMonFri2206 79200 21600 (86400 + 5 * 3600) rfl rfl rfl
      (by decide) (by decide)).mpr (by decide)

/-- C9: whenever the scale-down branch of the decision engine applies — a
downtime window is active, or uptime windows exist and none is active, or
no uptime windows exist but some downtime window does, all within the
branch where no uptime window is active — the target scale is the floor of
original_scale * downtime_percent / 100 in exact integer arithmetic, for
every original scale and every downtime percentage in 0..100. -/
theorem c9_scale_down_floor (uptime downtime : List TimeWindow)
    (ds original : Nat) (now : Int)
    (hds : ds ≤ 100)
    (hup : uptime.any (fun w => w.is_active now) = false)
    (hcond : downtime.any (fun w => w.is_active now) = true ∨
      (uptime ≠ [] ∧ uptime.any (fun w => w.is_active now) = false) ∨
      (uptime = [] ∧ downtime ≠ [])) :
    targetScale uptime downtime ds original now = original * ds / 100 := by
  unfold targetScale
  rw [if_neg (by simp [hup]), if_pos hcond]

/-- C9 witness: with no uptime windows and the active downtime window
wMonFri2206 at Monday 23:00 UTC, original 10 at 50 percent gives 5 and
original 3 at 0 percent gives 0. -/
theorem c9_scale_down_floor_witness :
    targetScale [] [wMonFri2206] 50 10 (23 * 3600) = 5 ∧
    targetScale [] [wMonFri2206] 0 3 (23 * 3600) = 0 := by
  constructor
  · rw [c9_scale_down_floor [] [wMonFri2206] 50 10 (23 * 3600) (by decide)
      (by decide) (Or.inl (by decide))]
  · rw [c9_scale_down_floor [] [wMonFri2206] 0 3 (23 * 3600) (by decide)
      (by decide) (Or.inl (by decide))]

/-- C4: in a cycle over any listed resources, a resource whose evaluation
raises an error (for instance a spec parse failure from its own tag
override) yields a caught, logged error entry, and every other resource of
the cycle — before and after it — is still evaluated exactly as it would be
on its own; no single failure aborts the cycle. -/
theorem c4_error_isolation (parseIso : String → Option Int) (cfg : Config)
    (xs ys : List Resource) (r : Resource) (now today : Int) (e : String)
    (hsp : should_process parseIso cfg r now = true)
    (herr : process_resource cfg r now today = Except.error e) :
    check_and_scale parseIso cfg (xs ++ r :: ys) now today =
      check_and_scale parseIso cfg xs now today ++
        CycleEntry.errorLogged (get_resource_name r) e ::
          check_and_scale parseIso cfg ys now today := by
  simp [check_and_scale, evalResource, hsp, herr]

/-- C4 witness: a resource with the unparsable uptime tag garbage sits
between two healthy resources; the cycle logs its error and still produces
the two surrounding evaluations. -/
theorem c4_error_isolation_witness :
    check_and_scale (fun _ => none) cfgNoWindows ([resA] ++ resBadSpec :: [resB]) 0 0 =
      check_and_scale (fun _ => none) cfgNoWindows [resA] 0 0 ++
        CycleEntry.errorLogged (get_resource_name resBadSpec)
          ("Invalid time window spec garbage: Invalid time window spec garbage") ::
          check_and_scale (fun _ => none) cfgNoWindows [resB] 0 0 ∧
    check_and_scale (fun _ => none) cfgNoWindows ([resA] ++ resBadSpec :: [resB]) 0 0 =
      [CycleEntry.done ("res-a") (ProcessOutcome.scaled 4 4),
       CycleEntry.errorLogged ("res-bad")
         ("Invalid time window spec garbage: Invalid time window spec garbage"),
       CycleEntry.done ("res-b") (ProcessOutcome.scaled 6 6)] :=
  ⟨c4_error_isolation (fun _ => none) cfgNoWindows [resA] [resB] resBadSpec 0 0 _
    rfl rfl, rfl⟩

/-- C5: for every resource carrying an exclude-until tag, if the value
parses as an instant t and now is earlier than t the resource is skipped
(should_process is false); and for every value that does not parse,
should_process degrades to exactly the remaining checks — the exclude tag,
the include list and the exclude list — so an unparsable exclude-until
value never excludes the resource and never fails its evaluation. -/
theorem c5_exclude_until (parseIso : String → Option Int) (cfg : Config)
    (r : Resource) (now : Int) (v : String)
    (hv : dictGet (resource_tags r) ("exclude-until") = some v) :
    (∀ t : Int, v.toList ≠ [] →
      parseIso (String.mk (pyReplace v.toList (String.toList ("Z"))
        (String.toList ("+00:00")))) = some t →
      now < t → should_process parseIso cfg r now = false)
    ∧ (parseIso (String.mk (pyReplace v.toList (String.toList ("Z"))
        (String.toList ("+00:00")))) = none →
      should_process parseIso cfg r now =
        (decide (¬ dictGet (resource_tags r) ("exclude") = some ("true")) &&
          includePasses cfg (get_resource_name r) &&
          excludeListPasses cfg (get_resource_name r))) := by
  constructor
  · intro t hne hp hlt
    have hfalse : excludeUntilPasses parseIso (resource_tags r) now = false := by
      unfold excludeUntilPasses
      simp only [hv, if_neg hne, hp, if_pos hlt]
    by_cases hex : dictGet (resource_tags r) ("exclude") = some ("true")
    · simp [should_process, hex]
    · simp [should_process, hex, hfalse]
  · intro hp
    have hpass : excludeUntilPasses parseIso (resource_tags r) now = true := by
      unfold excludeUntilPasses
      by_cases hne : v.toList = []
      · simp only [hv, if_pos hne]
      · simp only [hv, if_neg hne, hp]
    by_cases hex : dictGet (resource_tags r) ("exclude") = some ("true")
    · simp [should_process, hex]
    · cases hinc : includePasses cfg (get_resource_name r) <;>
        cases hexl : excludeListPasses cfg (get_resource_name r) <;>
        simp [should_process, hpass, hex, hinc, hexl]

/-- C5 witness: with the concrete parser pIsoFix the resource resUntil
(exclude-until 2024-01-02T12:00:00Z, normalised to the +00:00 form and
parsed to instant 1000) is skipped at now = 500; with a parser that rejects
every string the same resource passes all checks. -/
theorem c5_exclude_until_witness :
    should_process pIsoFix cfgNoWindows resUntil 500 = false ∧
    should_process (fun _ => none) cfgNoWindows resUntil 500 = true := by
  constructor
  · exact (c5_exclude_until pIsoFix cfgNoWindows resUntil 500
      ("2024-01-02T12:00:00Z") rfl).1 1000 (by decide) rfl (by decide)
  · rw [(c5_exclude_until (fun _ => none) cfgNoWindows resUntil 500
      ("2024-01-02T12:00:00Z") rfl).2 rfl]
    rfl

/-- A split never produces the empty list of segments. -/
theorem pySplitChar_ne_nil (c : Char) (l : List Char) : pySplitChar c l ≠ [] := by
  cases l with
  | nil => simp [pySplitChar]
  | cons x xs =>
    simp only [pySplitChar]
    cases h : pySplitChar c xs with
    | nil => simp
    | cons a t => split_ifs <;> simp

/-- Splitting a list free of the separator yields that list alone. -/
theorem pySplitChar_no_sep (c : Char) (l : List Char) (h : c ∉ l) :
    pySplitChar c l = [l] := by
  induction l with
  | nil => rfl
  | cons x xs ih =>
    have hx : ¬ x = c := by
      intro he
      exact h (he ▸ List.mem_cons_self x xs)
    have hxs : c ∉ xs := fun hm => h (List.mem_cons_of_mem _ hm)
    simp [pySplitChar, ih hxs, hx]

/-- Splitting around one separator occurrence preceded by separator-free
material detaches that material as the first segment. -/
theorem pySplitChar_append (c : Char) (l1 l2 : List Char) (h : c ∉ l1) :
    pySplitChar c (l1 ++ c :: l2) = l1 :: pySplitChar c l2 := by
  induction l1 with
  | nil =>
    cases hsp : pySplitChar c l2 with
    | nil => exact absurd hsp (pySplitChar_ne_nil c l2)
    | cons a t => simp [pySplitChar, hsp]
  | cons x xs ih =>
    have hx : ¬ x = c := by
      intro he
      exact h (he ▸ List.mem_cons_self x xs)
    have hxs : c ∉ xs := fun hm => h (List.mem_cons_of_mem _ hm)
    simp [pySplitChar, ih hxs, hx]

/-- Every valid weekday key is hyphen-free and maps to an index of at most
six. -/
theorem WEEKDAYS_key (s : List Char) (i : Nat) (h : WEEKDAYS s = some i) :
    ('-' ∉ s) ∧ i ≤ 6 := by
  unfold WEEKDAYS at h
  split_ifs at h with h1 h2 h3 h4 h5 h6 h7
  · rcases h1 with rfl | rfl <;> (cases h; exact (by decide))
  · rcases h2 with rfl | rfl <;> (cases h; exact (by decide))
  · rcases h3 with rfl | rfl <;> (cases h; exact (by decide))
  · rcases h4 with rfl | rfl <;> (cases h; exact (by decide))
  · rcases h5 with rfl | rfl <;> (cases h; exact (by decide))
  · rcases h6 with rfl | rfl <;> (cases h; exact (by decide))
  · rcases h7 with rfl | rfl <;> (cases h; exact (by decide))

/-- C10: for every range token built from two valid weekday names joined by
a hyphen, the parser accepts it and produces the weekday list of the range
branch, whose membership is the inclusive index interval from start to end
under Mon=0..Sun=6 — wrapping across the week boundary into the union of
the set from start to Saturday index 6 and the set up to end — exactly when
the end index is less than the start index. -/
theorem c10_weekday_range (a b : List Char) (sa sb : Nat)
    (ha : WEEKDAYS a = some sa) (hb : WEEKDAYS b = some sb) :
    parseWeekdayToken (a ++ '-' :: b) = Except.ok (weekdayRange sa sb) ∧
    (∀ d : Nat, d ∈ weekdayRange sa sb ↔
      (if sb < sa then (sa ≤ d ∧ d ≤ 6) ∨ d ≤ sb else sa ≤ d ∧ d ≤ sb)) := by
  obtain ⟨hna, hsa⟩ := WEEKDAYS_key a sa ha
  obtain ⟨hnb, hsb⟩ := WEEKDAYS_key b sb hb
  constructor
  · have hc : (a ++ '-' :: b).contains '-' = true := by
      simp
    unfold parseWeekdayToken
    simp only [hc, if_true, pySplitChar_append '-' a b hna,
      pySplitChar_no_sep '-' b hnb, ha, hb]
  · intro d
    unfold weekdayRange
    by_cases hlt : sb < sa
    · rw [if_pos hlt, if_pos hlt, List.mem_append, List.mem_range'_1,
        List.mem_range'_1]
      omega
    · rw [if_neg hlt, if_neg hlt, List.mem_range'_1]
      omega

/-- C10 witness: the token fri-mon (the lowercased form of Fri-Mon) expands
to the wrap-around weekday list Fri, Sat, Sun, Mon. -/
theorem c10_weekday_range_witness :
    parseWeekdayToken (String.toList ("fri-mon")) = Except.ok [4, 5, 6, 0] ∧
    (0 ∈ weekdayRange 4 0 ∧ 3 ∉ weekdayRange 4 0) := by
  have h := c10_weekday_range (String.toList ("fri")) (String.toList ("mon")) 4 0 rfl rfl
  refine ⟨?_, ?_, ?_⟩
  · calc parseWeekdayToken (String.toList ("fri-mon"))
        = parseWeekdayToken (String.toList ("fri") ++ '-' :: String.toList ("mon")) := rfl
      _ = Except.ok (weekdayRange 4 0) := h.1
      _ = Except.ok [4, 5, 6, 0] := rfl
  · exact (h.2 0).mpr (by decide)
  · intro hm
    have := (h.2 3).mp hm
    simp at this
